import Mathlib

/-!
Shallow embedding of the request-dispatch core in src/actix-web/axum/src/lib.rs
and the example extractor in examples/handlers.rs / examples/myhandler.rs.

Rust `async` values resolve immediately in this core (no suspension point
performs I/O), so futures are embedded as plain values; `&mut` parameters are
embedded as explicit state passing (the function returns the possibly-updated
value alongside its result).
-/

namespace Githubimpl

/-- Byte sequences (`&[u8]`, `Bytes`): lists of naturals, each below 256. -/
abbrev Bytes := List Nat

/-- Bytes of an ASCII string (UTF-8 of ASCII text is the code points). -/
def asciiBytes (s : String) : Bytes := s.data.map Char.toNat

/-- `http::Method`: compared by equality of its token, e.g. "GET". -/
abbrev Method := String

/-- `http::Uri`, restricted to the parts this core reads: the path component
and the query component, which `uri.path()` excludes. -/
structure Uri where
  path : Bytes
  query : Option Bytes := none
deriving DecidableEq, Repr

/-- ASCII lowercasing of one byte, as `http::HeaderName` normalization does. -/
def lowerByte (b : Nat) : Nat := if 65 ≤ b && b ≤ 90 then b + 32 else b

/-- `http::HeaderMap`: name/value pairs in insertion order; duplicate names
allowed.  `HeaderName`s are normalized to lowercase ASCII on construction,
embedded here by lowercasing at lookup. -/
abbrev Headers := List (Bytes × Bytes)

/-- `HeaderMap::get`: first value whose normalized name equals `name`. -/
def headerGet (hs : Headers) (name : Bytes) : Option Bytes :=
  (hs.find? (fun p => p.1.map lowerByte == name)).map Prod.snd

/-- `http::Request<B>`: method, URI, headers, and a body of type `B`. -/
structure Request (B : Type) where
  method : Method
  uri : Uri
  headers : Headers
  body : B
deriving Repr

/-- `http::Error`: opaque error value. -/
structure HttpError where
  msg : String
deriving DecidableEq, Repr

/-- `hyper::Body` as consumed by this core: a byte sequence. -/
structure Body where
  bytes : Bytes
deriving DecidableEq, Repr

/-- `Body::empty()`. -/
def Body.empty : Body := ⟨[]⟩

/-- `http::Response<B>`. -/
structure Response (B : Type) where
  status : Nat
  headers : Headers
  body : B
deriving DecidableEq, Repr

/-- `Response::new(body)`: status 200 OK, empty header map. -/
def Response.new {B : Type} (b : B) : Response B :=
  { status := 200, headers := [], body := b }

deriving instance DecidableEq for Except

/-- `std::task::Poll`. -/
inductive Poll (α : Type) where
  | ready (a : α)
  | pending
deriving DecidableEq, Repr

/-- `std::task::Context`: opaque waker context; this core never reads it. -/
structure Context where
  id : Nat
deriving DecidableEq, Repr

/-- `EmptyRouter(())`: the terminal fallback service. -/
structure EmptyRouter where
  unit : Unit
deriving DecidableEq, Repr

/-- `EmptyRouter::poll_ready`: ignores the context, reports `Ready(Ok(()))`. -/
def EmptyRouter.poll_ready (_self : EmptyRouter) (_cx : Context) :
    Poll (Except HttpError Unit) :=
  Poll.ready (Except.ok ())

/-- `EmptyRouter::call`: ignores the request; a fresh response whose status is
set to `StatusCode::NOT_FOUND` (404) over an empty body. -/
def EmptyRouter.call (_self : EmptyRouter) (_req : Request Body) :
    Except HttpError (Response Body) :=
  let res := Response.new Body.empty
  let res := { res with status := 404 }
  Except.ok res

/-- The `tower::Service` contract for a unit with state type `σ`: readiness
check and call both take `&mut self`, embedded as state passing, plus the
`Clone` bound `App::call` requires. -/
structure ServiceImpl (σ : Type) (B : Type) where
  poll_ready : σ → Context → σ × Poll (Except HttpError Unit)
  call : σ → Request B → σ × Except HttpError (Response B)
  clone : σ → σ

/-- `EmptyRouter`'s `Service` implementation; its derived `Clone`/`Copy` is the
identity (the single field is `()`). -/
def EmptyRouter.service : ServiceImpl EmptyRouter Body where
  poll_ready := fun s cx => (s, EmptyRouter.poll_ready s cx)
  call := fun s req => (s, EmptyRouter.call s req)
  clone := fun s => s

/-- `App<R>`: the composition root holding one dispatchable unit. -/
structure App (R : Type) where
  router : R

/-- `App::new()`: holds the terminal fallback. -/
def App.new : App EmptyRouter := ⟨⟨()⟩⟩

/-- `App::call` (`&self`): clone the held unit, call it, return the result.
The mutated clone is dropped; the root itself is taken by shared reference and
cannot change. -/
def App.call {R : Type} (impl : ServiceImpl R Body) (app : App R)
    (req : Request Body) : Except HttpError (Response Body) :=
  let svc := impl.clone app.router
  (impl.call svc req).2

/-- `RouteSpec`: method plus exact path bytes. -/
structure RouteSpec where
  method : Method
  spec : Bytes

/-- `RouteSpec::matches`: method equality and raw-byte equality of the
request's URI path against the stored spec. -/
def RouteSpec.matches {B : Type} (s : RouteSpec) (req : Request B) : Bool :=
  decide (req.method = s.method) && decide (req.uri.path = s.spec)

/-- An extraction function for target type `T` (`FromRequest::from_request`
with `&mut Request` embedded as state passing). -/
abbrev Ext (T : Type) := Request Body → T × Request Body

/-- `Handler<()>::call`: invoke the function on the untouched request and
return its result through `?`/`Ok`. -/
def Handler0.call (f : Request Body → Except HttpError (Response Body))
    (req : Request Body) : Except HttpError (Response Body) := do
  let res ← f req
  return res

/-- `Handler<(T1,)>::call`: extract `T1` from the mutable request, then invoke
the function with the (possibly mutated) request and the value. -/
def Handler1.call {T1 : Type} (fr1 : Ext T1)
    (f : Request Body → T1 → Except HttpError (Response Body))
    (req : Request Body) : Except HttpError (Response Body) := do
  let (t1, req) := fr1 req
  let res ← f req t1
  return res

/-- `Handler<(T1, T2)>::call`: extract `T1`, then `T2` from the request as
mutated by the first extraction, then invoke the function. -/
def Handler2.call {T1 T2 : Type} (fr1 : Ext T1) (fr2 : Ext T2)
    (f : Request Body → T1 → T2 → Except HttpError (Response Body))
    (req : Request Body) : Except HttpError (Response Body) := do
  let (t1, req) := fr1 req
  let (t2, req) := fr2 req
  let res ← f req t1 t2
  return res

/-- `http::HeaderValue::to_str`: succeeds iff every byte is visible ASCII
(32..=126) or horizontal tab, yielding the bytes as a string. -/
def isVisibleAscii (b : Nat) : Bool := (32 ≤ b && b < 127) || b == 9

def HeaderValue.to_str (v : Bytes) : Option String :=
  if v.all isVisibleAscii then some (String.mk (v.map Char.ofNat)) else none

/-- `UserId::from_request` from examples/handlers.rs (identical in
examples/myhandler.rs): first `x-user-id` header value, converted with
`to_str`, defaulting to "guest"; the request is returned untouched. -/
def UserId.from_request (req : Request Body) : String × Request Body :=
  let user_id :=
    match headerGet req.headers (asciiBytes "x-user-id") with
    | some h =>
      match HeaderValue.to_str h with
      | some s => s
      | none => "guest"
    | none => "guest"
  (user_id, req)

/-! Concrete mutating extractors and requests used to exhibit the observable
order of extraction. -/

/-- Extractor consuming the first body byte. -/
def takeByte : Ext Bytes := fun req =>
  match req.body.bytes with
  | [] => ([], req)
  | b :: rest => ([b], { req with body := ⟨rest⟩ })

/-- Extractor draining the whole remaining body. -/
def drainBody : Ext Bytes := fun req =>
  (req.body.bytes, { req with body := Body.empty })

/-- Two-arity function reporting both extracted values in its response body,
separated by a byte that cannot occur in either. -/
def observe2 : Request Body → Bytes → Bytes → Except HttpError (Response Body) :=
  fun _req t1 t2 => Except.ok { status := 200, headers := [], body := ⟨t1 ++ 255 :: t2⟩ }

/-- A sample request with a three-byte body. -/
def demoReq : Request Body :=
  { method := "GET", uri := { path := asciiBytes "/" }, headers := [],
    body := ⟨[1, 2, 3]⟩ }

/-- A sample request with no headers at all. -/
def bareReq : Request Body :=
  { method := "GET", uri := { path := asciiBytes "/" }, headers := [],
    body := Body.empty }

/-- A sample request whose `x-user-id` header value holds a byte outside
visible ASCII. -/
def badHeaderReq : Request Body :=
  { method := "GET", uri := { path := asciiBytes "/" }, headers :=
      [(asciiBytes "x-user-id", [200])], body := Body.empty }

/-! ### Helper lemmas -/

theorem handler1_eq {T1 : Type} (fr1 : Ext T1)
    (f : Request Body → T1 → Except HttpError (Response Body))
    (req : Request Body) :
    Handler1.call fr1 f req = f (fr1 req).2 (fr1 req).1 := by
  unfold Handler1.call
  rcases hfr : fr1 req with ⟨t1, r1⟩
  cases hf : f r1 t1 <;> simp [hf]

theorem handler2_eq {T1 T2 : Type} (fr1 : Ext T1) (fr2 : Ext T2)
    (f : Request Body → T1 → T2 → Except HttpError (Response Body))
    (req : Request Body) :
    Handler2.call fr1 fr2 f req =
      f (fr2 (fr1 req).2).2 (fr1 req).1 (fr2 (fr1 req).2).1 := by
  unfold Handler2.call
  rcases hfr : fr1 req with ⟨t1, r1⟩
  rcases hfr2 : fr2 r1 with ⟨t2, r2⟩
  cases hf : f r2 t1 t2 <;> simp [hfr2, hf]

/-! ### Claims -/

/-- C1: For every request (any method, path, headers, body), `App::call` on
the composition root holding the terminal fallback `EmptyRouter` returns `Ok`
of a response with status 404, empty body and no custom headers. -/
theorem C1_app_with_empty_router_returns_404 (req : Request Body) :
    App.call EmptyRouter.service App.new req =
      Except.ok { status := 404, headers := [], body := Body.empty } := by
  rfl

/-- C2: `RouteSpec::matches` returns true iff the request's method equals the
spec's method and the request's URI path bytes equal the spec's path bytes
exactly — case-sensitive, no partial match, no normalization. -/
theorem C2_route_spec_matches_iff_exact {B : Type} (s : RouteSpec)
    (req : Request B) :
    s.matches req = true ↔ (req.method = s.method ∧ req.uri.path = s.spec) := by
  simp [RouteSpec.matches]

/-- C4: The zero-arity handler adapter invokes the function on the request
unmodified and runs no extraction: its result is exactly the function's
result on the original request. -/
theorem C4_handler0_passes_request_through
    (f : Request Body → Except HttpError (Response Body)) (req : Request Body) :
    Handler0.call f req = f req := by
  unfold Handler0.call
  cases f req <;> rfl

/-- C7: Every dispatchable unit implemented in this core — `EmptyRouter`, the
sole `poll_ready` implementer — unconditionally reports `Ready(Ok(()))` in
every state and for every context, never pending and never an error. -/
theorem C7_poll_ready_always_ready (s : EmptyRouter) (cx : Context) :
    EmptyRouter.poll_ready s cx = Poll.ready (Except.ok ()) ∧
      EmptyRouter.service.poll_ready s cx = (s, Poll.ready (Except.ok ())) := by
  exact ⟨rfl, rfl⟩

/-- C3: The two-arity adapter runs the first extraction on the request, runs
the second extraction on the request state produced by the first, and only
then invokes the function with the resulting request and both values; and
concretely, swapping two mutating extractors changes the observable
consumption order. -/
theorem C3_handler2_runs_extractions_in_order {T1 T2 : Type}
    (fr1 : Ext T1) (fr2 : Ext T2)
    (f : Request Body → T1 → T2 → Except HttpError (Response Body))
    (req : Request Body) :
    (Handler2.call fr1 fr2 f req =
      f (fr2 (fr1 req).2).2 (fr1 req).1 (fr2 (fr1 req).2).1) ∧
    Handler2.call takeByte drainBody observe2 demoReq ≠
      Handler2.call drainBody takeByte observe2 demoReq := by
  refine ⟨handler2_eq fr1 fr2 f req, ?_⟩
  decide

/-- C5: The example `UserId` extractor yields "anand123" on a request carrying
`x-user-id: anand123`, and yields the default "guest" on any request with no
`x-user-id` header — absence is not an error. -/
theorem C5_userid_header_or_guest (method : Method) (uri : Uri) (body : Body)
    (req : Request Body)
    (hnone : headerGet req.headers (asciiBytes "x-user-id") = none) :
    (UserId.from_request { method := method
                           uri := uri
                           headers := [(asciiBytes "x-user-id", asciiBytes "anand123")]
                           body := body }).1 = "anand123" ∧
    (UserId.from_request req).1 = "guest" := by
  constructor
  · simp [UserId.from_request, headerGet, List.find?, HeaderValue.to_str]
    decide
  · simp [UserId.from_request, hnone]

theorem C5_userid_header_or_guest_witness :
    (UserId.from_request { method := "GET"
                           uri := { path := asciiBytes "/" }
                           headers := [(asciiBytes "x-user-id", asciiBytes "anand123")]
                           body := Body.empty }).1 = "anand123" ∧
    (UserId.from_request bareReq).1 = "guest" :=
  C5_userid_header_or_guest "GET" { path := asciiBytes "/" } Body.empty
    bareReq (by decide)

/-- C6: Each handler adapter (arity 0, 1 and 2) returns the underlying
function's result unchanged: an error propagates as that exact error, a
success as that exact response. -/
theorem C6_adapters_propagate_results_unchanged {T1 T2 : Type}
    (fr1 : Ext T1) (fr2 : Ext T2)
    (f0 : Request Body → Except HttpError (Response Body))
    (f1 : Request Body → T1 → Except HttpError (Response Body))
    (f2 : Request Body → T1 → T2 → Except HttpError (Response Body))
    (req : Request Body) (e : HttpError) (r : Response Body) :
    (f0 req = Except.error e → Handler0.call f0 req = Except.error e) ∧
    (f0 req = Except.ok r → Handler0.call f0 req = Except.ok r) ∧
    (f1 (fr1 req).2 (fr1 req).1 = Except.error e →
      Handler1.call fr1 f1 req = Except.error e) ∧
    (f1 (fr1 req).2 (fr1 req).1 = Except.ok r →
      Handler1.call fr1 f1 req = Except.ok r) ∧
    (f2 (fr2 (fr1 req).2).2 (fr1 req).1 (fr2 (fr1 req).2).1 = Except.error e →
      Handler2.call fr1 fr2 f2 req = Except.error e) ∧
    (f2 (fr2 (fr1 req).2).2 (fr1 req).1 (fr2 (fr1 req).2).1 = Except.ok r →
      Handler2.call fr1 fr2 f2 req = Except.ok r) := by
  have h0 : Handler0.call f0 req = f0 req := by
    unfold Handler0.call
    cases f0 req <;> rfl
  refine ⟨?_, ?_, ?_, ?_, ?_, ?_⟩ <;> intro h
  · rw [h0, h]
  · rw [h0, h]
  · rw [handler1_eq, h]
  · rw [handler1_eq, h]
  · rw [handler2_eq, h]
  · rw [handler2_eq, h]

theorem C6_adapters_propagate_results_unchanged_witness :
    (Handler0.call (fun _ => Except.error ⟨"boom"⟩) demoReq =
      Except.error ⟨"boom"⟩) ∧
    (Handler1.call drainBody (fun _ _ => Except.error ⟨"boom"⟩) demoReq =
      Except.error ⟨"boom"⟩) ∧
    (Handler2.call takeByte drainBody (fun _ _ _ => Except.error ⟨"boom"⟩)
      demoReq = Except.error ⟨"boom"⟩) ∧
    (Handler0.call (fun _ => Except.ok (Response.new Body.empty)) demoReq =
      Except.ok (Response.new Body.empty)) ∧
    (Handler1.call drainBody (fun _ _ => Except.ok (Response.new Body.empty))
      demoReq = Except.ok (Response.new Body.empty)) ∧
    (Handler2.call takeByte drainBody
      (fun _ _ _ => Except.ok (Response.new Body.empty)) demoReq =
      Except.ok (Response.new Body.empty)) := by
  have herr := C6_adapters_propagate_results_unchanged drainBody drainBody
    (fun _ => Except.error ⟨"boom"⟩) (fun _ _ => Except.error ⟨"boom"⟩)
    (fun _ _ _ => Except.error ⟨"boom"⟩) demoReq ⟨"boom"⟩
    (Response.new Body.empty)
  have hok := C6_adapters_propagate_results_unchanged takeByte drainBody
    (fun _ => Except.ok (Response.new Body.empty))
    (fun _ _ => Except.ok (Response.new Body.empty))
    (fun _ _ _ => Except.ok (Response.new Body.empty)) demoReq ⟨"boom"⟩
    (Response.new Body.empty)
  have herr2 := C6_adapters_propagate_results_unchanged takeByte drainBody
    (fun _ => Except.error ⟨"boom"⟩) (fun _ _ => Except.error ⟨"boom"⟩)
    (fun _ _ _ => Except.error ⟨"boom"⟩) demoReq ⟨"boom"⟩
    (Response.new Body.empty)
  exact ⟨herr.1 rfl, herr.2.2.1 rfl, herr2.2.2.2.2.1 rfl,
    hok.2.1 rfl, hok.2.2.2.1 rfl, hok.2.2.2.2.2 rfl⟩

/-- C8: `App::call` operates on a fresh clone of the held unit (so the root is
never mutated; the embedding returns no updated `App` at all, matching the
`&self` receiver), and two roots holding equal units behave identically on
every request. -/
theorem C8_app_call_clones_never_mutates {R : Type}
    (impl : ServiceImpl R Body) (a1 a2 : App R) (req : Request Body)
    (h : a1.router = a2.router) :
    App.call impl a1 req = (impl.call (impl.clone a1.router) req).2 ∧
    App.call impl a1 req = App.call impl a2 req := by
  refine ⟨rfl, ?_⟩
  unfold App.call
  rw [h]

theorem C8_app_call_clones_never_mutates_witness :
    App.call EmptyRouter.service App.new demoReq =
      (EmptyRouter.service.call
        (EmptyRouter.service.clone App.new.router) demoReq).2 ∧
    App.call EmptyRouter.service App.new demoReq =
      App.call EmptyRouter.service App.new demoReq :=
  C8_app_call_clones_never_mutates EmptyRouter.service App.new App.new
    demoReq rfl

/-- C9: `RouteSpec::matches` depends only on the request's method and URI
path: two requests of any body types agreeing on those agree on every match,
whatever their headers, bodies, or query strings. -/
theorem C9_matches_only_method_and_path {B1 B2 : Type} (s : RouteSpec)
    (r1 : Request B1) (r2 : Request B2)
    (hm : r1.method = r2.method) (hp : r1.uri.path = r2.uri.path) :
    s.matches r1 = s.matches r2 := by
  simp [RouteSpec.matches, hm, hp]

theorem C9_matches_only_method_and_path_witness :
    RouteSpec.matches ⟨"GET", asciiBytes "/"⟩
      { method := "GET"
        uri := { path := asciiBytes "/", query := some (asciiBytes "a=1") }
        headers := [(asciiBytes "x-user-id", asciiBytes "anand123")]
        body := (7 : Nat) } =
    RouteSpec.matches ⟨"GET", asciiBytes "/"⟩ bareReq :=
  C9_matches_only_method_and_path ⟨"GET", asciiBytes "/"⟩
    { method := "GET"
      uri := { path := asciiBytes "/", query := some (asciiBytes "a=1") }
      headers := [(asciiBytes "x-user-id", asciiBytes "anand123")]
      body := (7 : Nat) } bareReq rfl rfl

/-- C10: The example `UserId` extractor yields "guest" when the `x-user-id`
value cannot convert to a string; with several `x-user-id` headers it uses
the first; and it always returns the request unmodified. -/
theorem C10_userid_edge_cases (req : Request Body) (h : Bytes)
    (hsome : headerGet req.headers (asciiBytes "x-user-id") = some h)
    (hbad : HeaderValue.to_str h = none)
    (v1 v2 : Bytes) (rest : Headers) (method : Method) (uri : Uri)
    (body : Body) :
    (UserId.from_request req).1 = "guest" ∧
    (UserId.from_request { method := method
                           uri := uri
                           headers := (asciiBytes "x-user-id", v1) ::
                             (asciiBytes "x-user-id", v2) :: rest
                           body := body }).1 =
      (UserId.from_request { method := method
                             uri := uri
                             headers := [(asciiBytes "x-user-id", v1)]
                             body := body }).1 ∧
    ∀ r : Request Body, (UserId.from_request r).2 = r := by
  have hlow : (List.map lowerByte (asciiBytes "x-user-id") == asciiBytes "x-user-id") = true := by decide
  refine ⟨?_, ?_, fun r => rfl⟩
  · simp [UserId.from_request, hsome, hbad]
  · simp [UserId.from_request, headerGet, List.find?, hlow]

theorem C10_userid_edge_cases_witness :
    (UserId.from_request badHeaderReq).1 = "guest" ∧
    (UserId.from_request { method := "GET"
                           uri := { path := asciiBytes "/" }
                           headers := (asciiBytes "x-user-id", asciiBytes "a") ::
                             (asciiBytes "x-user-id", asciiBytes "b") :: []
                           body := Body.empty }).1 =
      (UserId.from_request { method := "GET"
                             uri := { path := asciiBytes "/" }
                             headers := [(asciiBytes "x-user-id", asciiBytes "a")]
                             body := Body.empty }).1 ∧
    ∀ r : Request Body, (UserId.from_request r).2 = r :=
  C10_userid_edge_cases badHeaderReq [200] (by decide) (by decide)
    (asciiBytes "a") (asciiBytes "b") [] "GET" { path := asciiBytes "/" }
    Body.empty

end Githubimpl
